import Mathlib

/-!
Shallow embedding of the model-compatibility resolution and fallback-retry
core of `askgpt.py` (a CLI wrapper around a chat-completion API), together
with theorems settling the specification's claims about it.

The embedding models the completion endpoint as a deterministic oracle
mapping a model name to either returned message content or a raised error,
and the recursive drivers `generate_question` / `get_answer` as fuel-indexed
functions that additionally record the trace of requests issued.
-/

namespace Askgpt

/-- Python `s.startswith(p)`: `p`'s characters are a prefix of `s`'s,
compared case-sensitively. -/
def py_startswith (s p : String) : Bool := p.data.isPrefixOf s.data

/-- Python `s.strip()`: drop whitespace characters from both ends. -/
def py_strip (s : String) : String :=
  String.mk (((s.data.dropWhile Char.isWhitespace).reverse.dropWhile
    Char.isWhitespace).reverse)

/-- Configuration constant `DEFAULT_MODEL = "gpt-5"` from the source. -/
def DEFAULT_MODEL : String := "gpt-5"

/-- Configuration constant `DEFAULT_MAX_TOKENS = 512` from the source. -/
def DEFAULT_MAX_TOKENS : Nat := 512

/-- The static fallback model list `FALLBACK_MODELS` from the source,
in its order. -/
def FALLBACK_MODELS : List String :=
  ["gpt-5", "gpt-4o", "gpt-4o-mini", "gpt-4-turbo", "gpt-4", "gpt-3.5-turbo"]

/-- `uses_max_completion_tokens(model)` from the source: `any(model.startswith(p)
for p in newer_model_prefixes)` over the fixed list of newer-family identifiers. -/
def uses_max_completion_tokens (model : String) : Bool :=
  let newer_model_prefixes := ["gpt-5", "gpt-4o", "o1", "o3", "o4", "gpt-4.1"]
  newer_model_prefixes.any fun p => py_startswith model p

/-- `supports_custom_temperature(model)` from the source: `not any(model.startswith(p)
for p in restricted_models)` over the fixed list of temperature-restricted identifiers. -/
def supports_custom_temperature (model : String) : Bool :=
  let restricted_models := ["gpt-5", "o1", "o3", "o4"]
  !(restricted_models.any fun p => py_startswith model p)

/-- A value stored in the request-parameter dictionary built by
`create_chat_completion`. Temperatures are carried as rationals
(the source only ever passes the literals 0.9 and 0.7). -/
inductive ParamValue where
  | str (s : String)
  | num (n : Nat)
  | temp (t : Rat)
  | msgs (m : List (String × String))
deriving DecidableEq, Repr

/-- The `params` dictionary assembled by `create_chat_completion` before the
network call, as an ordered association list: base keys `model` and `messages`,
then the token-limit key chosen by `uses_max_completion_tokens`, then the
`temperature` key added only when `supports_custom_temperature` holds.
Each message is a (role, content) pair. -/
def create_chat_completion_params (model : String) (messages : List (String × String))
    (max_tokens : Nat) (temperature : Rat) : List (String × ParamValue) :=
  let params := [("model", ParamValue.str model), ("messages", ParamValue.msgs messages)]
  let params :=
    if uses_max_completion_tokens model then
      params ++ [("max_completion_tokens", ParamValue.num max_tokens)]
    else
      params ++ [("max_tokens", ParamValue.num max_tokens)]
  let params :=
    if supports_custom_temperature model then
      params ++ [("temperature", ParamValue.temp temperature)]
    else
      params
  params

/-- Result of one completion-endpoint call for a given model: the returned
message content (`response.choices[0].message.content`), or the message of the
exception the call raised. -/
inductive ApiResult where
  | ok (content : String)
  | err (msg : String)
deriving DecidableEq, Repr

/-- A deterministic behavior of the completion endpoint: what one call with a
given model name produces. -/
def Behavior : Type := String → ApiResult

/-- One request issued to the completion endpoint by a driver: the arguments
the driver passes to `create_chat_completion`. -/
structure Request where
  model : String
  messages : List (String × String)
  max_tokens : Nat
  temperature : Rat
deriving DecidableEq, Repr

/-- Outcome of a driver invocation, observed up to a recursion-depth fuel:
a returned `(text, modelUsed)` pair, a `sys.exit(1)` with the message printed
to stderr, or fuel exhaustion (the computation is still recursing past that
depth). -/
inductive DriverResult where
  | ok (text : String) (modelUsed : String)
  | exit1 (stderrMsg : String)
  | fuelOut
deriving DecidableEq, Repr

/-- The temperature literal 0.9 that `generate_question` passes ("higher
temperature for more creativity"), as the exact rational 9/10. -/
def temperature09 : Rat := ⟨9, 10, by decide, by decide⟩

/-- The temperature literal 0.7 that `get_answer` passes ("moderate
temperature for balanced response"), as the exact rational 7/10. -/
def temperature07 : Rat := ⟨7, 10, by decide, by decide⟩

/-- The prompt `generate_question` crafts: topic-scoped when a topic is given,
"any topic" otherwise. -/
def question_prompt : Option String → String
  | some topic =>
      "Generate an interesting and thought-provoking question about " ++ topic ++
        ". Only provide the question, no answer."
  | none =>
      "Generate an interesting and thought-provoking question about any topic. " ++
        "Only provide the question, no answer."

/-- The `for fallback_model in FALLBACK_MODELS` loop in the drivers' `except`
branch. For each candidate equal to the failing model the guard skips it; the
first differing candidate is recursed into (`sub`) and that call's outcome is
the loop's outcome: in the source the recursive call either returns normally
or raises `SystemExit` via `sys.exit(1)`, never an `Exception` (`SystemExit`
derives from `BaseException`), so the `except Exception: continue` clause
around the recursive call can never fire and iteration past the first
differing candidate is unreachable. If no candidate differs, the loop falls
through to `sys.exit(1)` with the "all models failed" message. -/
def fallback_sweep (sub : String → DriverResult × List Request) (model : String)
    (failMsg : String) : List String → DriverResult × List Request
  | [] => (.exit1 failMsg, [])
  | m :: rest =>
    if m ≠ model then sub m else fallback_sweep sub model failMsg rest

/-- `generate_question(client, topic, model, max_tokens, debug)` from the
source, over an endpoint behavior `beh` and fuel bounding the recursion depth.
Returns the driver outcome and the trace of endpoint requests issued. On a
successful call the content is stripped; an empty or shorter-than-10 result
from the default model triggers one recursive retry with "gpt-4o"; an
erroring call triggers the fallback sweep. -/
def generate_question (beh : Behavior) : Nat → Option String → String → Nat →
    DriverResult × List Request
  | 0, _, _, _ => (.fuelOut, [])
  | n + 1, topic, model, max_tokens =>
    let req : Request :=
      ⟨model, [("user", question_prompt topic)], max_tokens, temperature09⟩
    match beh model with
    | .ok content =>
      let question := py_strip content
      if question.data.isEmpty || question.length < 10 then
        if model = DEFAULT_MODEL then
          let sub := generate_question beh n topic "gpt-4o" max_tokens
          (sub.1, req :: sub.2)
        else
          (.ok question model, [req])
      else
        (.ok question model, [req])
    | .err e =>
      let sub := fallback_sweep
        (fun m => generate_question beh n topic m max_tokens) model
        ("Error: All models failed to generate question. Last error: " ++ e)
        FALLBACK_MODELS
      (sub.1, req :: sub.2)

/-- `get_answer(client, question, model, max_tokens, debug)` from the source,
over an endpoint behavior `beh` and fuel bounding the recursion depth. Same
shape as `generate_question` with the question as the verbatim prompt and
temperature 0.7. -/
def get_answer (beh : Behavior) : Nat → String → String → Nat →
    DriverResult × List Request
  | 0, _, _, _ => (.fuelOut, [])
  | n + 1, question, model, max_tokens =>
    let req : Request := ⟨model, [("user", question)], max_tokens, temperature07⟩
    match beh model with
    | .ok content =>
      let answer := py_strip content
      if answer.data.isEmpty || answer.length < 10 then
        if model = DEFAULT_MODEL then
          let sub := get_answer beh n question "gpt-4o" max_tokens
          (sub.1, req :: sub.2)
        else
          (.ok answer model, [req])
      else
        (.ok answer model, [req])
    | .err e =>
      let sub := fallback_sweep
        (fun m => get_answer beh n question m max_tokens) model
        ("Error: All models failed to get answer. Last error: " ++ e)
        FALLBACK_MODELS
      (sub.1, req :: sub.2)

/-- A model-listing API response object, of which the source reads only the
`id` field (`[model.id for model in models]`). -/
structure ModelObj where
  id : String
deriving DecidableEq, Repr

/-- `fetch_available_models()` from the source, over the outcome of the one
`client.models.list()` call: on success the list of `model.id`s is returned
with no diagnostic; on an exception the empty list is returned after printing
`Error fetching models: {e}`. The second component is the list of diagnostic
lines printed. -/
def fetch_available_models : Except String (List ModelObj) → List String × List String
  | .ok models => (models.map ModelObj.id, [])
  | .error e => ([], ["Error fetching models: " ++ e])

/-- Endpoint behavior where every model's call raises. -/
def all_fail_endpoint : Behavior := fun _ => .err "service unavailable"

/-- Endpoint behavior where the calls with "gpt-5" and "gpt-4o" raise and the
call with the third fallback candidate "gpt-4o-mini" succeeds. -/
def third_model_ok_endpoint : Behavior := fun m =>
  if m = "gpt-4o-mini" then .ok "A long and perfectly valid generated sentence."
  else .err "service unavailable"

/-- Endpoint behavior where the default model returns a weak (short) response
and every other model's call raises. -/
def weak_default_then_fail_endpoint : Behavior := fun m =>
  if m = "gpt-5" then .ok "hi" else .err "service unavailable"

/-- Endpoint behavior where the default model returns a weak response and
every other model returns another weak response. -/
def weak_default_then_ok_endpoint : Behavior := fun m =>
  if m = "gpt-5" then .ok "hi" else .ok "ok!"

/-- Endpoint behavior where the call with "gpt-5" raises and every other model
succeeds with an adequate response. -/
def scenario_second_ok_endpoint : Behavior := fun m =>
  if m = "gpt-5" then .err "rate limited"
  else .ok " The second model answers at length. "

end Askgpt

namespace Askgpt

/-- Claim C7: `uses_max_completion_tokens` returns true exactly when the model
identifier starts with one of "gpt-5", "gpt-4o", "o1", "o3", "o4", "gpt-4.1"
(case-sensitive), and false for every other identifier. -/
theorem uses_max_completion_tokens_iff (model : String) :
    uses_max_completion_tokens model = true ↔
      (py_startswith model "gpt-5" = true ∨ py_startswith model "gpt-4o" = true ∨
       py_startswith model "o1" = true ∨ py_startswith model "o3" = true ∨
       py_startswith model "o4" = true ∨ py_startswith model "gpt-4.1" = true) := by
  simp [uses_max_completion_tokens, List.any_cons, List.any_nil,
    Bool.or_eq_true, or_assoc]

/-- Claim C8: `supports_custom_temperature` returns false exactly when the model
identifier starts with one of "gpt-5", "o1", "o3", "o4", and true for every
other identifier. -/
theorem supports_custom_temperature_false_iff (model : String) :
    supports_custom_temperature model = false ↔
      (py_startswith model "gpt-5" = true ∨ py_startswith model "o1" = true ∨
       py_startswith model "o3" = true ∨ py_startswith model "o4" = true) := by
  cases h1 : py_startswith model "gpt-5" <;>
    cases h2 : py_startswith model "o1" <;>
      cases h3 : py_startswith model "o3" <;>
        cases h4 : py_startswith model "o4" <;>
          simp [supports_custom_temperature, List.any_cons, List.any_nil, h1, h2, h3, h4]

/-- Claim C6: the request built by `create_chat_completion` has a `temperature`
key exactly when `supports_custom_temperature` holds for the model, its
token-limit key is `max_completion_tokens` exactly when
`uses_max_completion_tokens` holds, and is `max_tokens` exactly otherwise —
never both. -/
theorem create_chat_completion_params_shape (model : String)
    (messages : List (String × String)) (max_tokens : Nat) (temperature : Rat) :
    ("temperature" ∈ (create_chat_completion_params model messages max_tokens
        temperature).map Prod.fst ↔ supports_custom_temperature model = true) ∧
    ("max_completion_tokens" ∈ (create_chat_completion_params model messages max_tokens
        temperature).map Prod.fst ↔ uses_max_completion_tokens model = true) ∧
    ("max_tokens" ∈ (create_chat_completion_params model messages max_tokens
        temperature).map Prod.fst ↔ uses_max_completion_tokens model = false) := by
  cases hu : uses_max_completion_tokens model <;>
    cases ht : supports_custom_temperature model <;>
      simp [create_chat_completion_params, hu, ht]

/-- Claim C10: every temperature-restricted model uses the new token-limit
parameter name: whenever `supports_custom_temperature` is false,
`uses_max_completion_tokens` is true. -/
theorem restricted_implies_new_token_name (model : String)
    (h : supports_custom_temperature model = false) :
    uses_max_completion_tokens model = true := by
  rw [supports_custom_temperature_false_iff] at h
  rw [uses_max_completion_tokens_iff]
  tauto

/-- Witness for C10 at the concrete model "gpt-5". -/
theorem restricted_implies_new_token_name_witness :
    supports_custom_temperature "gpt-5" = false ∧
      uses_max_completion_tokens "gpt-5" = true :=
  ⟨by decide, restricted_implies_new_token_name "gpt-5" (by decide)⟩

end Askgpt

namespace Askgpt

/-- Under an endpoint whose call raises for every model, a driver invocation
on either of the first two fallback models keeps alternating between them:
at every recursion depth it is still running, having issued exactly one
endpoint request per depth level. -/
theorem generate_question_all_fail_alternates (topic : Option String) (tk : Nat) :
    ∀ n : Nat,
      ((generate_question all_fail_endpoint n topic "gpt-5" tk).1 = DriverResult.fuelOut ∧
        (generate_question all_fail_endpoint n topic "gpt-5" tk).2.length = n) ∧
      ((generate_question all_fail_endpoint n topic "gpt-4o" tk).1 = DriverResult.fuelOut ∧
        (generate_question all_fail_endpoint n topic "gpt-4o" tk).2.length = n) := by
  intro n
  induction n with
  | zero => exact ⟨⟨rfl, rfl⟩, ⟨rfl, rfl⟩⟩
  | succ n ih =>
    refine ⟨?_, ?_⟩ <;>
      simp [generate_question, all_fail_endpoint, fallback_sweep, FALLBACK_MODELS,
        ih.1.1, ih.1.2, ih.2.1, ih.2.2]

/-- Counterpart of `generate_question_all_fail_alternates` for `get_answer`. -/
theorem get_answer_all_fail_alternates (q : String) (tk : Nat) :
    ∀ n : Nat,
      ((get_answer all_fail_endpoint n q "gpt-5" tk).1 = DriverResult.fuelOut ∧
        (get_answer all_fail_endpoint n q "gpt-5" tk).2.length = n) ∧
      ((get_answer all_fail_endpoint n q "gpt-4o" tk).1 = DriverResult.fuelOut ∧
        (get_answer all_fail_endpoint n q "gpt-4o" tk).2.length = n) := by
  intro n
  induction n with
  | zero => exact ⟨⟨rfl, rfl⟩, ⟨rfl, rfl⟩⟩
  | succ n ih =>
    refine ⟨?_, ?_⟩ <;>
      simp [get_answer, all_fail_endpoint, fallback_sweep, FALLBACK_MODELS,
        ih.1.1, ih.1.2, ih.2.1, ih.2.2]

/-- Claim C1, evaluated at the failing input: under an endpoint that raises
for every model, the retry recursion started from the default model has made
exactly n endpoint attempts by recursion depth n and is still running, for
every n — the number of attempts is not bounded by the fallback list's
length and the recursion never terminates. -/
theorem error_retry_attempts_unbounded :
    ∀ n : Nat,
      ((generate_question all_fail_endpoint n none "gpt-5" 512).1 = DriverResult.fuelOut ∧
        (generate_question all_fail_endpoint n none "gpt-5" 512).2.length = n) ∧
      ((get_answer all_fail_endpoint n "Is the service up?" "gpt-5" 512).1 = DriverResult.fuelOut ∧
        (get_answer all_fail_endpoint n "Is the service up?" "gpt-5" 512).2.length = n) :=
  fun n => ⟨(generate_question_all_fail_alternates none 512 n).1,
    (get_answer_all_fail_alternates "Is the service up?" 512 n).1⟩

/-- Claim C3, evaluated at the failing input: when the endpoint raises for
every model, the drivers never reach the `sys.exit(1)` path that would print
the "all models failed" message — at every recursion depth the computation is
still looping between the first two fallback models. -/
theorem all_models_raising_no_exit1 :
    ∀ (n : Nat) (msg : String),
      (generate_question all_fail_endpoint n none "gpt-5" 512).1 ≠ DriverResult.exit1 msg ∧
      (get_answer all_fail_endpoint n "Is the service up?" "gpt-5" 512).1 ≠ DriverResult.exit1 msg := by
  intro n msg
  rw [(generate_question_all_fail_alternates none 512 n).1.1,
    (get_answer_all_fail_alternates "Is the service up?" 512 n).1.1]
  exact ⟨fun h => DriverResult.noConfusion h, fun h => DriverResult.noConfusion h⟩

/-- Witness for C3's theorem at depth 8 and the concrete message the source
would print on exhaustion. -/
theorem all_models_raising_no_exit1_witness :
    (generate_question all_fail_endpoint 8 none "gpt-5" 512).1 ≠
      DriverResult.exit1
        "Error: All models failed to generate question. Last error: service unavailable" :=
  (all_models_raising_no_exit1 8
    "Error: All models failed to generate question. Last error: service unavailable").1

/-- Counterexample to claim C2: with the endpoint raising for "gpt-5" and
"gpt-4o" but succeeding for the third fallback candidate "gpt-4o-mini", the
driver does not iterate the fallback list and return the first successful
candidate's result — within 20 recursion levels it only ever attempts the
first two candidates, alternating between them, and is still running. -/
theorem fallback_not_iterated_counterexample :
    third_model_ok_endpoint "gpt-4o-mini" =
      ApiResult.ok "A long and perfectly valid generated sentence." ∧
    (generate_question third_model_ok_endpoint 20 none "gpt-5" 512).1 = DriverResult.fuelOut ∧
    (generate_question third_model_ok_endpoint 20 none "gpt-5" 512).2.map Request.model =
      ["gpt-5", "gpt-4o", "gpt-5", "gpt-4o", "gpt-5", "gpt-4o", "gpt-5", "gpt-4o",
       "gpt-5", "gpt-4o", "gpt-5", "gpt-4o", "gpt-5", "gpt-4o", "gpt-5", "gpt-4o",
       "gpt-5", "gpt-4o", "gpt-5", "gpt-4o"] := by
  decide

/-- Claim C2 as amended: when the endpoint raises for the current model the
driver recursively retries only with the first fallback-list candidate
different from the failing model and returns that call's outcome unchanged;
in particular, if the endpoint raises for the default "gpt-5" and returns
content for the next candidate "gpt-4o", both drivers return the stripped
content with modelUsed "gpt-4o", having issued exactly those two requests. -/
theorem error_fallback_first_alternate (beh : Behavior) (e t q : String)
    (n tk : Nat) (topic : Option String)
    (h5 : beh "gpt-5" = ApiResult.err e) (h4 : beh "gpt-4o" = ApiResult.ok t) :
    generate_question beh (n + 2) topic "gpt-5" tk =
      (DriverResult.ok (py_strip t) "gpt-4o",
        [⟨"gpt-5", [("user", question_prompt topic)], tk, temperature09⟩,
         ⟨"gpt-4o", [("user", question_prompt topic)], tk, temperature09⟩]) ∧
    get_answer beh (n + 2) q "gpt-5" tk =
      (DriverResult.ok (py_strip t) "gpt-4o",
        [⟨"gpt-5", [("user", q)], tk, temperature07⟩,
         ⟨"gpt-4o", [("user", q)], tk, temperature07⟩]) := by
  constructor <;>
    simp [generate_question, get_answer, h5, h4, fallback_sweep, FALLBACK_MODELS,
      DEFAULT_MODEL, ite_self]

/-- Witness for C2's amended theorem: endpoint raising for "gpt-5", succeeding
for every other model. -/
theorem error_fallback_first_alternate_witness :
    generate_question scenario_second_ok_endpoint 2 none "gpt-5" 512 =
      (DriverResult.ok (py_strip " The second model answers at length. ") "gpt-4o",
        [⟨"gpt-5", [("user", question_prompt none)], 512, temperature09⟩,
         ⟨"gpt-4o", [("user", question_prompt none)], 512, temperature09⟩]) ∧
    get_answer scenario_second_ok_endpoint 2 "Ping?" "gpt-5" 512 =
      (DriverResult.ok (py_strip " The second model answers at length. ") "gpt-4o",
        [⟨"gpt-5", [("user", "Ping?")], 512, temperature07⟩,
         ⟨"gpt-4o", [("user", "Ping?")], 512, temperature07⟩]) :=
  error_fallback_first_alternate scenario_second_ok_endpoint "rate limited"
    " The second model answers at length. " "Ping?" 0 512 none (by decide) (by decide)

/-- Counterexample to claim C4: with the endpoint returning the weak text
"hi" for the default model and raising for every other model, the weak-retry
with "gpt-4o" raises and cascades into the error-fallback recursion: within
21 recursion levels the drivers have issued 21 endpoint attempts (not one
call plus exactly one retry) and returned nothing, so no result with
modelUsed "gpt-4o" is produced. -/
theorem weak_retry_cascades_counterexample :
    weak_default_then_fail_endpoint "gpt-5" = ApiResult.ok "hi" ∧
    (generate_question weak_default_then_fail_endpoint 21 none "gpt-5" 512).1 =
      DriverResult.fuelOut ∧
    (generate_question weak_default_then_fail_endpoint 21 none "gpt-5" 512).2.length = 21 := by
  decide

/-- Claim C4 as amended: when the endpoint call with the default model
returns content whose stripped form is empty or shorter than 10 characters,
and the retry's endpoint call with "gpt-4o" itself returns content, the
drivers issue exactly one retry — substituting "gpt-4o", with the same
prompt and the same token limit — and return its stripped content with
modelUsed "gpt-4o", even if that content is also weak. -/
theorem weak_default_single_retry (beh : Behavior) (w t q : String)
    (n tk : Nat) (topic : Option String)
    (h5 : beh "gpt-5" = ApiResult.ok w)
    (hweak : ((py_strip w).data.isEmpty || (py_strip w).length < 10) = true)
    (h4 : beh "gpt-4o" = ApiResult.ok t) :
    generate_question beh (n + 2) topic "gpt-5" tk =
      (DriverResult.ok (py_strip t) "gpt-4o",
        [⟨"gpt-5", [("user", question_prompt topic)], tk, temperature09⟩,
         ⟨"gpt-4o", [("user", question_prompt topic)], tk, temperature09⟩]) ∧
    get_answer beh (n + 2) q "gpt-5" tk =
      (DriverResult.ok (py_strip t) "gpt-4o",
        [⟨"gpt-5", [("user", q)], tk, temperature07⟩,
         ⟨"gpt-4o", [("user", q)], tk, temperature07⟩]) := by
  constructor <;>
    simp [generate_question, get_answer, h5, h4, hweak, fallback_sweep,
      DEFAULT_MODEL, ite_self]

/-- Witness for C4's amended theorem: the default model answers "hi" (weak)
and "gpt-4o" answers "ok!" (also weak), which is still returned with
modelUsed "gpt-4o". -/
theorem weak_default_single_retry_witness :
    generate_question weak_default_then_ok_endpoint 2 none "gpt-5" 512 =
      (DriverResult.ok (py_strip "ok!") "gpt-4o",
        [⟨"gpt-5", [("user", question_prompt none)], 512, temperature09⟩,
         ⟨"gpt-4o", [("user", question_prompt none)], 512, temperature09⟩]) ∧
    get_answer weak_default_then_ok_endpoint 2 "Why?" "gpt-5" 512 =
      (DriverResult.ok (py_strip "ok!") "gpt-4o",
        [⟨"gpt-5", [("user", "Why?")], 512, temperature07⟩,
         ⟨"gpt-4o", [("user", "Why?")], 512, temperature07⟩]) :=
  weak_default_single_retry weak_default_then_ok_endpoint "hi" "ok!" "Why?" 0 512 none
    (by decide) (by decide) (by decide)

/-- Claim C5: for a model different from the configured default, a successful
endpoint call whose stripped content is empty or shorter than 10 characters
is returned as-is with the current model as modelUsed — the drivers issue
exactly the one request and no fallback retry. -/
theorem weak_nondefault_returned_as_is (beh : Behavior) (m s q : String)
    (n tk : Nat) (topic : Option String)
    (hm : m ≠ DEFAULT_MODEL)
    (hs : beh m = ApiResult.ok s)
    (hweak : ((py_strip s).data.isEmpty || (py_strip s).length < 10) = true) :
    generate_question beh (n + 1) topic m tk =
      (DriverResult.ok (py_strip s) m,
        [⟨m, [("user", question_prompt topic)], tk, temperature09⟩]) ∧
    get_answer beh (n + 1) q m tk =
      (DriverResult.ok (py_strip s) m, [⟨m, [("user", q)], tk, temperature07⟩]) := by
  constructor <;>
    simp [generate_question, get_answer, hs, hweak, if_neg hm]

/-- Witness for C5 at the non-default model "gpt-4o" whose weak answer "ok!"
is returned unchanged. -/
theorem weak_nondefault_returned_as_is_witness :
    generate_question weak_default_then_ok_endpoint 1 none "gpt-4o" 512 =
      (DriverResult.ok (py_strip "ok!") "gpt-4o",
        [⟨"gpt-4o", [("user", question_prompt none)], 512, temperature09⟩]) ∧
    get_answer weak_default_then_ok_endpoint 1 "Why?" "gpt-4o" 512 =
      (DriverResult.ok (py_strip "ok!") "gpt-4o",
        [⟨"gpt-4o", [("user", "Why?")], 512, temperature07⟩]) :=
  weak_nondefault_returned_as_is weak_default_then_ok_endpoint "gpt-4o" "ok!" "Why?" 0 512 none
    (by decide) (by decide) (by decide)

/-- Claim C9: `fetch_available_models` never propagates a failure — a raising
listing call yields the empty list after the diagnostic line, and a
successful call yields the ids of the response's model objects with no
diagnostic. -/
theorem fetch_available_models_total (e : String) (ms : List ModelObj) :
    fetch_available_models (Except.error e) = ([], ["Error fetching models: " ++ e]) ∧
    fetch_available_models (Except.ok ms) = (ms.map ModelObj.id, []) :=
  ⟨rfl, rfl⟩

end Askgpt
